import Mathlib

/-!
Verification development for the pdf-rag-chatbot repository.

The repository has four Python source files:
  rag_chatbot_ollama.py - the RAG chatbot class served by the API (Ollama backend),
  rag_chatbot.py        - an OpenAI-backed variant with explicit retry loops,
  app.py                - the FastAPI layer wiring HTTP endpoints to the chatbot,
  database.py           - the SQLAlchemy history store (users, chats, messages).

Each namespace below shallowly embeds the part of one source file that the
statements proved about it need.  External services (embedding similarity,
LLM generation, VectorStoreIndex.from_documents) are abstracted as function
parameters (oracles); everything else is translated from the source.
-/

set_option maxHeartbeats 1000000
set_option linter.unusedVariables false

namespace RAGSpec

namespace Ollama

/-- A text chunk stored in the vector index: the unit returned by retrieval.
Embeds the node objects LlamaIndex stores in the Chroma collection
(source document back-reference plus extracted text). -/
structure Chunk where
  sourceDoc : String
  text : String
deriving DecidableEq, Repr

/-- The vector index (`self.index`, a `VectorStoreIndex` over a Chroma
collection), modelled by the list of chunks it stores, in ingestion order. -/
structure Index where
  nodes : List Chunk
deriving DecidableEq, Repr

/-- `VectorStoreIndex([], storage_context=...)`: the empty index created by
`_create_index` when the corpus directory is missing or holds no PDF file
(rag_chatbot_ollama.py lines 119-143). -/
def emptyIndex : Index := ⟨[]⟩

/-- Insert one scored chunk into a list that is sorted by descending score,
keeping earlier (lower ingestion sequence) chunks first among equal scores. -/
def insertScored (x : Chunk × Int) : List (Chunk × Int) → List (Chunk × Int)
  | [] => [x]
  | y :: ys => if y.2 ≤ x.2 then x :: y :: ys else y :: insertScored x ys

/-- Stable sort of scored chunks by descending similarity score. -/
def sortScored : List (Chunk × Int) → List (Chunk × Int)
  | [] => []
  | x :: xs => insertScored x (sortScored xs)

/-- `index.as_retriever(similarity_top_k=k).retrieve(q)`: score every stored
chunk against the query with the embedding-similarity oracle `score`, order
by descending score and keep the top `k` (rag_chatbot_ollama.py line 282-283).
An index with no nodes yields the empty result for every query. -/
def retrieve (score : String → Chunk → Int) (idx : Index) (q : String) (k : Nat) :
    List Chunk :=
  ((sortScored (idx.nodes.map (fun c => (c, score q c)))).map Prod.fst).take k

/-- Python exception values surfaced by the embedded code. -/
inductive PyErr where
  | valueError (msg : String)
  | typeError (msg : String)
  | attributeError (msg : String)
  | nameError (msg : String)
  | exception (msg : String)
  | chatError (cause : PyErr)
deriving DecidableEq, Repr

/-- The fixed refusal sentence of rag_chatbot_ollama.py (lines 287 and 296). -/
def refusalSentence : String :=
  "죄송합니다. 해당 정보를 찾을 수 없습니다. 다른 질문을 해주시면 도와드리겠습니다."

/-- The custom system prompt bound to every chat engine
(rag_chatbot_ollama.py lines 263-270). -/
def customPrompt : String :=
  "당신은 친절하고 자세하게 답변하는 어시스턴트입니다.\n" ++
  "답변할 때 다음을 지켜주세요:\n" ++
  "1. 제공된 문서의 정보를 바탕으로 자세하고 친절하게 설명하세요.\n" ++
  "2. 가능한 한 구체적이고 실용적인 정보를 포함하세요.\n" ++
  "3. 단계별 설명이 필요한 경우 명확하게 나누어 설명하세요.\n" ++
  "4. 관련 정보가 없는 경우에만 \"죄송합니다. 해당 정보를 찾을 수 없습니다. 다른 질문을 해주시면 도와드리겠습니다.\"라고 답변하세요.\n"

/-- ASCII whitespace as recognised by Python str.strip: the space character
and the control characters 9-13 (tab, newline, vertical tab, form feed,
carriage return).  Python also strips some further Unicode space characters,
which do not occur in this code path. -/
def isPySpace (c : Char) : Bool := c == ' ' || (9 ≤ c.toNat && c.toNat ≤ 13)

/-- Characters of the string with leading and trailing whitespace removed,
embedding Python `s.strip()`. -/
def stripChars (l : List Char) : List Char :=
  ((l.dropWhile isPySpace).reverse.dropWhile isPySpace).reverse

/-- `len(s.strip())`, the length test of rag_chatbot_ollama.py line 295. -/
def strippedLen (s : String) : Nat := (stripChars s.toList).length

/-- Result of one `RAGChatbot.chat` call: the returned string or raised
exception, together with whether the generation engine (`chat_engine.chat`)
was invoked during the call. -/
structure ChatOutcome where
  result : Except PyErr String
  genInvoked : Bool
deriving Repr

/-- `RAGChatbot.chat` of rag_chatbot_ollama.py (lines 248-303).
`score` abstracts embedding similarity, `gen` abstracts the freshly built
`chat_engine.chat` call (a new engine is constructed on every call, line 272,
so `gen` depends only on the question).  `chatHistory` mirrors the
`chat_history` parameter, which the body never reads.  Control flow from the
source: raise ValueError when the index is `None`; retrieve top-12 chunks;
return the refusal sentence without generating when the retrieval is empty;
otherwise generate, and replace answers whose trimmed length is below 10
with the refusal sentence.  A generation exception is wrapped and re-raised
(lines 299-303). -/
def chat (score : String → Chunk → Int) (gen : String → Except PyErr String)
    (index : Option Index) (question : String)
    (chatHistory : Option (List (String × String))) : ChatOutcome :=
  match index with
  | none => ⟨.error (.valueError "인덱스가 초기화되지 않았습니다."), false⟩
  | some idx =>
      match retrieve score idx question 12 with
      | [] => ⟨.ok refusalSentence, false⟩
      | _ :: _ =>
          match gen question with
          | .error e => ⟨.error (.chatError e), true⟩
          | .ok responseText =>
              if strippedLen responseText < 10 then ⟨.ok refusalSentence, true⟩
              else ⟨.ok responseText, true⟩

/-- The corpus directory as `_create_index` observes it: whether the path
exists, which `*.pdf` files globbing finds, and the documents
`SimpleDirectoryReader.load_data()` would return. -/
structure CorpusDir where
  dirExists : Bool
  pdfFiles : List String
  documents : List String
deriving DecidableEq, Repr

/-- `RAGChatbot._create_index` of rag_chatbot_ollama.py (lines 112-190).
If the directory does not exist, or globbing finds no PDF file, the method
prints a warning and installs `VectorStoreIndex([])` - it does not raise.
Otherwise it builds the index from the loaded documents;
`fromDocuments` abstracts `VectorStoreIndex.from_documents`, which may fail. -/
def createIndex (fromDocuments : List String → Except PyErr Index)
    (dir : CorpusDir) : Except PyErr Index :=
  if dir.dirExists = false then .ok emptyIndex
  else if dir.pdfFiles.isEmpty then .ok emptyIndex
  else fromDocuments dir.documents

/-- C3: if retrieval for the question returns no chunk, `chat` returns exactly
the fixed refusal sentence and never invokes the generation engine; over the
empty index the retrieval is empty for every question, breadth and score. -/
theorem chat_empty_retrieval_refuses (score : String → Chunk → Int)
    (gen : String → Except PyErr String) (idx : Index) (question : String)
    (chatHistory : Option (List (String × String)))
    (hret : retrieve score idx question 12 = []) :
    chat score gen (some idx) question chatHistory = ⟨.ok refusalSentence, false⟩ ∧
    ∀ (score2 : String → Chunk → Int) (q2 : String) (k2 : Nat),
      retrieve score2 emptyIndex q2 k2 = [] := by
  constructor
  · simp [chat, hret]
  · intro score2 q2 k2
    simp [retrieve, emptyIndex, sortScored]

/-- Witness for C3 at a concrete input: over the empty index, chatting with a
generation oracle that would answer at length returns the refusal sentence
without invoking generation. -/
theorem chat_empty_retrieval_refuses_witness :
    retrieve (fun _ _ => 0) emptyIndex "화성의 수도는?" 12 = [] ∧
    chat (fun _ _ => 0) (fun _ => .ok "a long generated answer")
        (some emptyIndex) "화성의 수도는?" none = ⟨.ok refusalSentence, false⟩ :=
  ⟨rfl,
   (chat_empty_retrieval_refuses (fun _ _ => 0) (fun _ => .ok "a long generated answer")
      emptyIndex "화성의 수도는?" none rfl).1⟩

/-- C8: when the corpus directory is missing or contains no PDF file,
index creation does not raise: it returns the empty index, and retrieval
over the empty index is empty for every score, question and breadth. -/
theorem createIndex_missing_or_empty_corpus
    (fromDocuments : List String → Except PyErr Index) (dir : CorpusDir)
    (h : dir.dirExists = false ∨ dir.pdfFiles = []) :
    createIndex fromDocuments dir = .ok emptyIndex ∧
    ∀ (score : String → Chunk → Int) (q : String) (k : Nat),
      retrieve score emptyIndex q k = [] := by
  refine ⟨?_, ?_⟩
  · rcases h with h | h
    · simp [createIndex, h]
    · simp [createIndex, h]
  · intro score q k
    simp [retrieve, emptyIndex, sortScored]

/-- Witness for C8: a directory that exists but has no PDF file yields the
empty index even when the document builder would fail. -/
theorem createIndex_missing_or_empty_corpus_witness :
    (CorpusDir.mk true [] []).pdfFiles = [] ∧
    createIndex (fun _ => .error (.exception "backend down")) (CorpusDir.mk true [] [])
      = .ok emptyIndex :=
  ⟨rfl,
   (createIndex_missing_or_empty_corpus (fun _ => .error (.exception "backend down"))
      (CorpusDir.mk true [] []) (Or.inr rfl)).1⟩

/-- C9: when retrieval is non-empty and generation returns an answer, `chat`
returns the fixed refusal sentence in place of any answer whose trimmed
length is below 10, and returns every answer of trimmed length at least 10
verbatim. -/
theorem chat_short_answer_replaced (score : String → Chunk → Int)
    (gen : String → Except PyErr String) (idx : Index) (question : String)
    (chatHistory : Option (List (String × String))) (answer : String)
    (hne : retrieve score idx question 12 ≠ [])
    (hgen : gen question = .ok answer) :
    chat score gen (some idx) question chatHistory =
      ⟨.ok (if strippedLen answer < 10 then refusalSentence else answer), true⟩ := by
  obtain ⟨c, cs, hcons⟩ := List.exists_cons_of_ne_nil hne
  by_cases hlen : strippedLen answer < 10
  · simp [chat, hcons, hgen, hlen]
  · simp [chat, hcons, hgen, hlen]

/-- Witness for C9 at concrete inputs: with a single-chunk index (non-empty
retrieval), a two-character answer is replaced by the refusal sentence, and a
long answer is returned verbatim. -/
theorem chat_short_answer_replaced_witness :
    retrieve (fun _ _ => 0) ⟨[⟨"doc.pdf", "본문"⟩]⟩ "질문" 12 ≠ [] ∧
    chat (fun _ _ => 0) (fun _ => .ok "짧다") (some ⟨[⟨"doc.pdf", "본문"⟩]⟩) "질문" none
      = ⟨.ok refusalSentence, true⟩ ∧
    chat (fun _ _ => 0) (fun _ => .ok "주민등록등본은 정부24에서 발급받을 수 있습니다")
        (some ⟨[⟨"doc.pdf", "본문"⟩]⟩) "질문" none
      = ⟨.ok "주민등록등본은 정부24에서 발급받을 수 있습니다", true⟩ := by
  refine ⟨by decide, ?_, ?_⟩
  · have h := chat_short_answer_replaced (fun _ _ => 0) (fun _ => .ok "짧다")
      ⟨[⟨"doc.pdf", "본문"⟩]⟩ "질문" none "짧다" (by decide) rfl
    rw [if_pos (by decide)] at h
    exact h
  · have h := chat_short_answer_replaced (fun _ _ => 0)
      (fun _ => .ok "주민등록등본은 정부24에서 발급받을 수 있습니다")
      ⟨[⟨"doc.pdf", "본문"⟩]⟩ "질문" none
      "주민등록등본은 정부24에서 발급받을 수 있습니다" (by decide) rfl
    rw [if_neg (by decide)] at h
    exact h

/-- C10: the `chat_history` parameter of `RAGChatbot.chat` is never read by
the body, so any two values passed for it produce identical calls: same
retrieval, same generation, same outcome. -/
theorem chat_history_parameter_ignored (score : String → Chunk → Int)
    (gen : String → Except PyErr String) (index : Option Index) (question : String)
    (h1 h2 : Option (List (String × String))) :
    chat score gen index question h1 = chat score gen index question h2 := rfl

end Ollama

namespace Api

/-- Parameter names (after `self`) of the `chat` method of the chatbot class
served by the API: rag_chatbot_ollama.py line 248 reads
`def chat(self, question: str, chat_history: list = None)`. -/
def chatMethodParams : List String := ["question", "chat_history"]

/-- Keyword-argument names used at the call site in `chat_with_bot`,
app.py lines 387-390: `chatbot.chat(question=..., session_id=...)`. -/
def chatCallKeywords : List String := ["question", "session_id"]

/-- Python keyword-call binding check: a keyword call binds (does not raise
TypeError for an unexpected keyword argument) exactly when every keyword
names a parameter of the callee. -/
def keywordsAccepted (params kws : List String) : Bool :=
  kws.all (fun k => params.contains k)

/-- Names of the methods defined on class `RAGChatbot` in
rag_chatbot_ollama.py (lines 20-303); attribute lookup on the chatbot
instance succeeds only for these.  There is no `reset_session`. -/
def ragChatbotMethods : List String :=
  ["__init__", "_initialize_index", "_create_index", "ingest_pdfs", "query", "chat"]

/-- Python attribute lookup for a method on the chatbot instance:
`some` if the class defines it, otherwise AttributeError (`none`). -/
def lookupMethod (name : String) : Option String :=
  if ragChatbotMethods.contains name then some name else none

/-- Response of an API endpoint: a success payload (answer and echoed
session id), or an HTTP error status with the error kind it reports. -/
inductive ApiResult where
  | ok (answer : String) (sessionId : String)
  | httpError (status : Nat) (errorKind : String)
deriving DecidableEq, Repr

/-- The POST /api/chat handler `chat_with_bot` (app.py lines 367-407).
When the global chatbot is `None` it answers 503 ChatbotNotInitialized.
Otherwise it calls `chatbot.chat(question=..., session_id=...)` inside a
try/except: if the keyword call bound, `run` abstracts the method call on
the question (there is no session state anywhere for it to consult); any
exception - including the TypeError from a keyword that names no parameter -
is converted to HTTP 500 with error kind "ChatError". -/
def chat_with_bot (initialized : Bool) (run : String → Ollama.ChatOutcome)
    (question sessionId : String) : ApiResult :=
  if initialized = false then .httpError 503 "ChatbotNotInitialized"
  else if keywordsAccepted chatMethodParams chatCallKeywords then
    match run question with
    | ⟨.ok answer, _⟩ => .ok answer sessionId
    | ⟨.error _, _⟩ => .httpError 500 "ChatError"
  else .httpError 500 "ChatError"

/-- The DELETE /api/chat/session/\x7bsession_id\x7d handler
`reset_chat_session` (app.py lines 410-432).  When the chatbot is
initialized it calls `chatbot.reset_session(session_id)` with no
try/except around it; if the attribute lookup succeeds the handler answers
200 with a confirmation message, and if it fails the AttributeError
propagates out of the handler, which FastAPI surfaces as HTTP 500. -/
def reset_chat_session (initialized : Bool) (sessionId : String) : ApiResult :=
  if initialized = false then .httpError 503 "ChatbotNotInitialized"
  else
    match lookupMethod "reset_session" with
    | some _ => .ok ("세션 " ++ sessionId ++ "의 대화 기록이 초기화되었습니다.") sessionId
    | none => .httpError 500 "AttributeError"

/-- C1 (code bug): the served chatbot class has no `session_id` parameter on
`chat` and no session cache at all, so every POST /api/chat call - for every
question, session id and chatbot behaviour - raises TypeError inside the
handler and returns HTTP 500; no conversation handle is ever created or
reused, for the same or for different session ids. -/
theorem chat_endpoint_always_type_error (run : String → Ollama.ChatOutcome)
    (question sessionId : String) :
    keywordsAccepted chatMethodParams chatCallKeywords = false ∧
    chat_with_bot true run question sessionId = .httpError 500 "ChatError" := by
  refine ⟨by decide, ?_⟩
  simp [chat_with_bot, keywordsAccepted, chatMethodParams, chatCallKeywords]

/-- C2 (code bug): class `RAGChatbot` defines no `reset_session` method, so
the reset endpoint fails with an unhandled AttributeError (HTTP 500) for
every session id, known or unknown. -/
theorem reset_endpoint_always_attribute_error (sessionId : String) :
    lookupMethod "reset_session" = none ∧
    reset_chat_session true sessionId = .httpError 500 "AttributeError" := by
  refine ⟨by decide, ?_⟩
  simp [reset_chat_session, lookupMethod, ragChatbotMethods]

end Api

namespace Retry

/-- Top-level names bound by the import statements of rag_chatbot.py
(lines 4-13): os, Path, load_dotenv, the llama_index names and chromadb.
`time` is not among them, although both retry loops call `time.sleep`. -/
def importedNames : List String :=
  ["os", "Path", "load_dotenv", "VectorStoreIndex", "SimpleDirectoryReader",
   "Settings", "StorageContext", "ChromaVectorStore", "OpenAIEmbedding",
   "OpenAI", "chromadb"]

/-- Whether the name `time` is defined at module scope in rag_chatbot.py;
referencing an undefined name raises NameError. -/
def timeDefined : Bool := importedNames.contains "time"

/-- Bool test for a character-list prefix. -/
def charsPrefix : List Char → List Char → Bool
  | [], _ => true
  | _ :: _, [] => false
  | p :: ps, c :: cs => p == c && charsPrefix ps cs

/-- Bool test for a character-list substring occurrence. -/
def charsContains (pat : List Char) : List Char → Bool
  | [] => charsPrefix pat []
  | c :: cs => charsPrefix pat (c :: cs) || charsContains pat cs

/-- Python `pat in s` on strings. -/
def containsSub (s pat : String) : Bool := charsContains pat.toList s.toList

/-- Python `s.lower()` restricted to ASCII case folding (Char.toLower),
which is all the source's patterns need. -/
def lowerStr (s : String) : String := ⟨s.toList.map Char.toLower⟩

/-- The transient-failure classification of rag_chatbot.py
(lines 164-165 and 231-232): `"429" in str(e) or "rate limit" in
str(e).lower() or "too many requests" in str(e).lower()`. -/
def isRateLimitError (msg : String) : Bool :=
  containsSub msg "429" || containsSub (lowerStr msg) "rate limit" ||
    containsSub (lowerStr msg) "too many requests"

/-- Exception leaving one of the retry loops. -/
inductive LoopExc where
  | nameErrorTime
  | exhaustedFresh (msg : String)
  | backendErr (msg : String)
deriving DecidableEq, Repr

/-- How a retry loop ends: a returned answer, a raised exception, or the
(unreachable) fall-through that would make the Python function return None. -/
inductive LoopOutcome where
  | ok (answer : String)
  | raised (e : LoopExc)
  | fellThrough
deriving DecidableEq, Repr

/-- Observable behaviour of one retry-loop execution: its outcome, how many
times the backend was called, and the sequence of sleeps performed. -/
structure LoopRun where
  outcome : LoopOutcome
  calls : Nat
  sleeps : List Nat
deriving DecidableEq, Repr

/-- The shared shape of the two `for attempt in range(max_attempts)` retry
loops of rag_chatbot.py (`query` lines 225-240, `_create_index` lines
153-176).  `backend` gives the outcome of the protected call on each
attempt (its error is `str(e)`)。  On a transient error before the final
attempt the source evaluates `time.sleep((attempt + 1) * base_delay)`:
if `time` is not a defined name this raises NameError out of the loop;
otherwise the sleep is recorded and the loop continues.  A transient error
on the final attempt raises `onExhaust` (the two loops differ there), and a
non-transient error is re-raised immediately.  `fuel` counts the remaining
iterations, starting at `maxAttempts` with `attempt = 0`. -/
def retryLoop (hasTime : Bool) (maxAttempts baseDelay : Nat)
    (onExhaust : String → LoopExc) (backend : Nat → Except String String) :
    Nat → Nat → List Nat → LoopRun
  | attempt, 0, sleeps => ⟨.fellThrough, attempt, sleeps.reverse⟩
  | attempt, fuel + 1, sleeps =>
      match backend attempt with
      | .ok answer => ⟨.ok answer, attempt + 1, sleeps.reverse⟩
      | .error msg =>
          if isRateLimitError msg then
            if attempt < maxAttempts - 1 then
              if hasTime then
                retryLoop hasTime maxAttempts baseDelay onExhaust backend
                  (attempt + 1) fuel ((attempt + 1) * baseDelay :: sleeps)
              else ⟨.raised .nameErrorTime, attempt + 1, sleeps.reverse⟩
            else ⟨.raised (onExhaust msg), attempt + 1, sleeps.reverse⟩
          else ⟨.raised (.backendErr msg), attempt + 1, sleeps.reverse⟩

/-- `RAGChatbot.query` retry loop (rag_chatbot.py lines 225-240):
max_attempts = 3, waits (attempt+1)*10 seconds, and on exhausting the
attempts raises a fresh Exception with a fixed message that does not carry
the underlying error (line 238). -/
def queryRun (backend : Nat → Except String String) : LoopRun :=
  retryLoop timeDefined 3 10
    (fun _ => .exhaustedFresh "Rate Limit 에러가 계속 발생합니다. 잠시 후 다시 시도해주세요.")
    backend 0 3 []

/-- `RAGChatbot._create_index` retry loop (rag_chatbot.py lines 153-176):
max_attempts = 5, waits (attempt+1)*30 seconds, and on exhausting the
attempts re-raises the last underlying error (bare `raise`, line 173). -/
def createIndexRun (backend : Nat → Except String String) : LoopRun :=
  retryLoop timeDefined 5 30 (fun msg => .backendErr msg) backend 0 5 []

theorem retryLoop_transient_noTime (maxAttempts baseDelay : Nat)
    (onExhaust : String → LoopExc) (backend : Nat → Except String String)
    (attempt fuel : Nat) (sleeps : List Nat) (msg : String)
    (hb : backend attempt = .error msg) (ht : isRateLimitError msg = true)
    (hlt : attempt < maxAttempts - 1) :
    retryLoop false maxAttempts baseDelay onExhaust backend attempt (fuel + 1) sleeps
      = ⟨.raised .nameErrorTime, attempt + 1, sleeps.reverse⟩ := by
  simp [retryLoop, hb, ht, hlt]

/-- C4 (code bug): rag_chatbot.py never imports `time`, so on the very
first transient (rate-limit) failure both retry loops evaluate
`time.sleep(...)` and raise NameError after a single backend call - no
retry, no backoff sleep, and no exhaustion error carrying the last failure
ever happens. -/
theorem retry_loops_raise_name_error (backend : Nat → Except String String)
    (msg : String) (hb : backend 0 = .error msg)
    (ht : isRateLimitError msg = true) :
    timeDefined = false ∧
    queryRun backend = ⟨.raised .nameErrorTime, 1, []⟩ ∧
    createIndexRun backend = ⟨.raised .nameErrorTime, 1, []⟩ := by
  refine ⟨by decide, ?_, ?_⟩
  · have h : queryRun backend
        = retryLoop false 3 10
            (fun _ => .exhaustedFresh "Rate Limit 에러가 계속 발생합니다. 잠시 후 다시 시도해주세요.")
            backend 0 (2 + 1) [] := rfl
    rw [h, retryLoop_transient_noTime _ _ _ _ _ _ _ _ hb ht (by decide)]
    rfl
  · have h : createIndexRun backend
        = retryLoop false 5 30 (fun msg => .backendErr msg) backend 0 (4 + 1) [] := rfl
    rw [h, retryLoop_transient_noTime _ _ _ _ _ _ _ _ hb ht (by decide)]
    rfl

/-- Witness for C4: a backend whose first call fails with an HTTP 429
message makes both loops raise NameError after exactly one call. -/
theorem retry_loops_raise_name_error_witness :
    (fun (_ : Nat) => (Except.error "Error code: 429" : Except String String)) 0
      = Except.error "Error code: 429" ∧
    isRateLimitError "Error code: 429" = true ∧
    queryRun (fun _ => Except.error "Error code: 429")
      = ⟨.raised .nameErrorTime, 1, []⟩ ∧
    createIndexRun (fun _ => Except.error "Error code: 429")
      = ⟨.raised .nameErrorTime, 1, []⟩ :=
  ⟨rfl, by decide,
   (retry_loops_raise_name_error (fun _ => Except.error "Error code: 429")
      "Error code: 429" rfl (by decide)).2.1,
   (retry_loops_raise_name_error (fun _ => Except.error "Error code: 429")
      "Error code: 429" rfl (by decide)).2.2⟩

end Retry

namespace DB

/-- A row of the `users` table (database.py lines 18-45): SERIAL integer id,
unique email, and the mutable fields name, image, provider, provider_id,
plus the server-maintained timestamps.  Timestamps are modelled by a logical
clock (one tick per write transaction). -/
structure UserRow where
  id : Nat
  email : String
  name : String
  image : Option String
  provider : Option String
  providerId : Option String
  createdAt : Nat
  updatedAt : Nat
deriving DecidableEq, Repr

/-- A row of the `chats` table (database.py lines 48-60): string primary key,
title, owning user_id, timestamps. -/
structure ChatRow where
  id : String
  title : String
  userId : Nat
  createdAt : Nat
  updatedAt : Nat
deriving DecidableEq, Repr

/-- A row of the `messages` table (database.py lines 76-87): autoincrement
integer id, chat_id foreign key with ondelete CASCADE, role, content and
created_at (`func.now()`, the transaction timestamp, so every message
inserted by one transaction carries the same value). -/
structure MsgRow where
  id : Nat
  chatId : String
  role : String
  content : String
  createdAt : Nat
deriving DecidableEq, Repr

/-- A message as supplied by callers of create_chat/update_chat:
a role/content dictionary. -/
structure MsgIn where
  role : String
  content : String
deriving DecidableEq, Repr

/-- The relational database state: the three tables plus the id sequences
and the logical clock providing `func.now()`. -/
structure DBState where
  users : List UserRow
  chats : List ChatRow
  messages : List MsgRow
  nextUserId : Nat
  nextMsgId : Nat
  clock : Nat
deriving DecidableEq, Repr

/-- `INSERT INTO users ... ON CONFLICT (email) DO UPDATE SET name, image,
provider, provider_id, updated_at RETURNING *` (database.py lines 169-191)
over the rows of the users table: if a row with the email exists it is
updated in place (the unique index on email guarantees at most one such
row), otherwise a new row is appended with the next sequence id.  Returns
the new table, the returned row, and the next value of the id sequence. -/
def upsertByEmail (email name : String) (image provider providerId : Option String)
    (ts : Nat) : List UserRow → Nat → List UserRow × UserRow × Nat
  | [], fresh =>
      let u : UserRow := ⟨fresh, email, name, image, provider, providerId, ts, ts⟩
      ([u], u, fresh + 1)
  | u :: rest, fresh =>
      if u.email == email then
        let u2 : UserRow := ⟨u.id, u.email, name, image, provider, providerId, u.createdAt, ts⟩
        (u2 :: rest, u2, fresh)
      else
        let r := upsertByEmail email name image provider providerId ts rest fresh
        (u :: r.1, r.2.1, r.2.2)

/-- `Database.create_user` (database.py lines 162-197): one atomic upsert
statement keyed by the unique email column, committed in its own session. -/
def create_user (st : DBState) (email name : String)
    (image provider providerId : Option String) : DBState × UserRow :=
  let r := upsertByEmail email name image provider providerId st.clock st.users st.nextUserId
  ({ st with users := r.1, nextUserId := r.2.2, clock := st.clock + 1 }, r.2.1)

/-- `Database.create_or_get_user_by_email` (database.py lines 215-218):
delegates directly to create_user, whose ON CONFLICT upsert covers the
lookup/create/update cases. -/
def create_or_get_user_by_email (st : DBState) (email name : String)
    (image provider providerId : Option String) : DBState × UserRow :=
  create_user st email name image provider providerId

/-- Number of user rows carrying the given email. -/
def countEmail (users : List UserRow) (email : String) : Nat :=
  (users.filter (fun u => u.email == email)).length

/-- `select(Chat).where(Chat.id == chat_id, Chat.user_id == user_id)` with
`scalar_one_or_none` (database.py lines 263-269 and 313-316). -/
def findChat (st : DBState) (chatId : String) (userId : Nat) : Option ChatRow :=
  st.chats.find? (fun c => c.id == chatId && c.userId == userId)

/-- The message rows belonging to one chat. -/
def chatMessages (st : DBState) (chatId : String) : List MsgRow :=
  st.messages.filter (fun m => m.chatId == chatId)

/-- Stable insertion into a list ordered by ascending created_at. -/
def insertByCreated (m : MsgRow) : List MsgRow → List MsgRow
  | [] => [m]
  | x :: xs => if m.createdAt ≤ x.createdAt then m :: x :: xs else x :: insertByCreated m xs

/-- Stable sort by ascending created_at: the `order_by="Message.created_at"`
of the Chat.messages relationship (database.py line 60). -/
def sortByCreated : List MsgRow → List MsgRow
  | [] => []
  | x :: xs => insertByCreated x (sortByCreated xs)

/-- `Chat.to_dict(include_messages=True)` (database.py lines 62-73, 89-94):
the chat's columns plus its messages, each reduced to role and content,
ordered by created_at. -/
structure ChatDict where
  id : String
  title : String
  userId : Nat
  messages : List (String × String)
deriving DecidableEq, Repr

/-- Build the dictionary returned for a chat row from the current state. -/
def chatToDict (st : DBState) (c : ChatRow) : ChatDict :=
  ⟨c.id, c.title, c.userId,
   (sortByCreated (chatMessages st c.id)).map (fun m => (m.role, m.content))⟩

/-- `Database.get_chat` (database.py lines 260-270). -/
def get_chat (st : DBState) (chatId : String) (userId : Nat) : Option ChatDict :=
  (findChat st chatId userId).map (chatToDict st)

/-- The message rows inserted for the supplied role/content pairs: ids drawn
from the autoincrement sequence, created_at the transaction timestamp. -/
def freshMsgs (chatId : String) (ts : Nat) : List MsgIn → Nat → List MsgRow
  | [], _ => []
  | m :: rest, nid => ⟨nid, chatId, m.role, m.content, ts⟩ :: freshMsgs chatId ts rest (nid + 1)

/-- The title update of update_chat (database.py lines 321-323): set the
title when one was supplied (`onupdate` refreshing updated_at), else leave
the row unchanged. -/
def applyTitle (title : Option String) (ts : Nat) (c : ChatRow) : ChatRow :=
  match title with
  | some t => { c with title := t, updatedAt := ts }
  | none => c

/-- `Database.update_chat` (database.py lines 309-354), one transaction:
select the chat scoped to (chat_id, user_id), returning None when absent;
update the title when one is supplied; when a message list is supplied
(including the empty list) delete every message of the chat and insert the
new ones; commit everything at once - the state is only replaced by the
fully updated one, as the session commits atomically and rolls back on
failure; finally re-select the chat by id and return its dictionary. -/
def update_chat (st : DBState) (chatId : String) (userId : Nat)
    (title : Option String) (msgs : Option (List MsgIn)) :
    DBState × Option ChatDict :=
  match findChat st chatId userId with
  | none => (st, none)
  | some _ =>
      let chats := st.chats.map (fun c =>
        if c.id == chatId && c.userId == userId then applyTitle title st.clock c else c)
      let messages :=
        match msgs with
        | none => st.messages
        | some ms =>
            st.messages.filter (fun m => !(m.chatId == chatId))
              ++ freshMsgs chatId st.clock ms st.nextMsgId
      let nextMsgId :=
        match msgs with
        | none => st.nextMsgId
        | some ms => st.nextMsgId + ms.length
      let st2 : DBState :=
        { st with chats := chats, messages := messages,
                  nextMsgId := nextMsgId, clock := st.clock + 1 }
      (st2, (st2.chats.find? (fun c => c.id == chatId)).map (chatToDict st2))

/-- `SELECT * FROM messages WHERE id = msgId` - direct lookup of one message
row by its primary key. -/
def find_message (st : DBState) (msgId : Nat) : Option MsgRow :=
  st.messages.find? (fun m => m.id == msgId)

/-- `Database.delete_chat` (database.py lines 356-371):
`DELETE FROM chats WHERE id = chat_id AND user_id = user_id`, the
ondelete CASCADE foreign key removing the chat's message rows in the same
operation, then `rowcount > 0`.  The id column is the primary key, so the
statement deletes at most the one row `findChat` finds. -/
def delete_chat (st : DBState) (chatId : String) (userId : Nat) : DBState × Bool :=
  match findChat st chatId userId with
  | none => (st, false)
  | some _ =>
      ({ st with
          chats := st.chats.filter (fun c => !(c.id == chatId && c.userId == userId)),
          messages := st.messages.filter (fun m => !(m.chatId == chatId)),
          clock := st.clock + 1 }, true)

theorem filter_of_filter_not {α : Type} (p : α → Bool) (l : List α) :
    (l.filter (fun a => !(p a))).filter p = [] := by
  induction l with
  | nil => rfl
  | cons x xs ih =>
      by_cases hx : p x = true
      · simp [List.filter_cons, hx, ih]
      · simp [List.filter_cons, hx, ih]

theorem find?_of_filter_not {α : Type} (p : α → Bool) (l : List α) :
    (l.filter (fun a => !(p a))).find? p = none := by
  induction l with
  | nil => rfl
  | cons x xs ih =>
      by_cases hx : p x = true
      · simp [List.filter_cons, hx, ih]
      · simp [List.filter_cons, hx, ih]

theorem freshMsgs_mem (cid : String) (ts : Nat) (ms : List MsgIn) (nid : Nat) :
    ∀ m ∈ freshMsgs cid ts ms nid, m.chatId = cid ∧ m.createdAt = ts := by
  induction ms generalizing nid with
  | nil => intro m hm; simp [freshMsgs] at hm
  | cons a as ih =>
      intro m hm
      rw [freshMsgs] at hm
      rcases List.mem_cons.1 hm with rfl | hm
      · exact ⟨rfl, rfl⟩
      · exact ih _ m hm

theorem freshMsgs_filter (cid : String) (ts : Nat) (ms : List MsgIn) (nid : Nat) :
    (freshMsgs cid ts ms nid).filter (fun m => m.chatId == cid)
      = freshMsgs cid ts ms nid := by
  induction ms generalizing nid with
  | nil => rfl
  | cons a as ih => simp [freshMsgs, List.filter_cons, ih]

theorem freshMsgs_map_pair (cid : String) (ts : Nat) (ms : List MsgIn) (nid : Nat) :
    (freshMsgs cid ts ms nid).map (fun m => (m.role, m.content))
      = ms.map (fun m => (m.role, m.content)) := by
  induction ms generalizing nid with
  | nil => rfl
  | cons a as ih => simp [freshMsgs, ih]

theorem sortByCreated_const (ts : Nat) (l : List MsgRow)
    (h : ∀ m ∈ l, m.createdAt = ts) : sortByCreated l = l := by
  induction l with
  | nil => rfl
  | cons x xs ih =>
      have hx : x.createdAt = ts := h x (List.mem_cons_self x xs)
      have hxs : ∀ m ∈ xs, m.createdAt = ts := fun m hm => h m (List.mem_cons_of_mem x hm)
      rw [sortByCreated, ih hxs]
      cases xs with
      | nil => rfl
      | cons y ys =>
          have hy : y.createdAt = ts := h y (List.mem_cons_of_mem x (List.mem_cons_self y ys))
          rw [insertByCreated, if_pos (by rw [hx, hy])]

theorem find?_map_guarded {α : Type} (p : α → Bool) (f : α → α)
    (hp : ∀ a, p (f a) = p a) (l : List α) :
    (l.map (fun a => if p a then f a else a)).find? p
      = (l.find? p).map (fun a => if p a then f a else a) := by
  induction l with
  | nil => rfl
  | cons x xs ih =>
      by_cases hx : p x = true
      · have hfx : p (f x) = true := by rw [hp]; exact hx
        simp [List.map_cons, List.find?_cons, hx, hfx]
      · have hx2 : p x = false := by simpa using hx
        simp [List.map_cons, List.find?_cons, hx2, ih]

theorem applyTitle_id (title : Option String) (ts : Nat) (c : ChatRow) :
    (applyTitle title ts c).id = c.id := by
  cases title <;> rfl

theorem applyTitle_userId (title : Option String) (ts : Nat) (c : ChatRow) :
    (applyTitle title ts c).userId = c.userId := by
  cases title <;> rfl

/-- C5: update_chat on an existing chat with messages=None leaves the stored
message table (and users) entirely unchanged and a subsequent get_chat sees
the same message list, while any supplied message list - the empty list
included - replaces the chat's messages wholesale: get_chat afterwards
returns exactly the supplied role/content pairs (deletion of the old rows
and insertion of the new ones land in the single committed state). -/
theorem update_chat_none_vs_some (st : DBState) (cid : String) (uid : Nat)
    (title : Option String) (c : ChatRow) (h : findChat st cid uid = some c) :
    ((update_chat st cid uid title none).1.messages = st.messages ∧
     (update_chat st cid uid title none).1.users = st.users ∧
     (get_chat (update_chat st cid uid title none).1 cid uid).map ChatDict.messages
       = (get_chat st cid uid).map ChatDict.messages) ∧
    ∀ ms : List MsgIn,
      (get_chat (update_chat st cid uid title (some ms)).1 cid uid).map ChatDict.messages
        = some (ms.map (fun m => (m.role, m.content))) := by
  have hfind : st.chats.find? (fun c => c.id == cid && c.userId == uid) = some c := h
  have hpc0 := List.find?_some hfind
  have hpc : (c.id == cid && c.userId == uid) = true := hpc0
  have hcid : c.id = cid := by
    have h1 := hpc
    simp only [Bool.and_eq_true, beq_iff_eq] at h1
    exact h1.1
  have hfp : ∀ a : ChatRow,
      ((applyTitle title st.clock a).id == cid && (applyTitle title st.clock a).userId == uid)
        = (a.id == cid && a.userId == uid) := by
    intro a; rw [applyTitle_id, applyTitle_userId]
  have hmap :
      (st.chats.map (fun a =>
          if a.id == cid && a.userId == uid then applyTitle title st.clock a else a)).find?
          (fun a => a.id == cid && a.userId == uid)
        = (st.chats.find? (fun a => a.id == cid && a.userId == uid)).map
            (fun a => if a.id == cid && a.userId == uid then applyTitle title st.clock a
              else a) :=
    find?_map_guarded _ (applyTitle title st.clock) hfp st.chats
  have hprop : c.id = cid ∧ c.userId = uid := by
    simpa [Bool.and_eq_true, beq_iff_eq] using hpc
  constructor
  · refine ⟨?_, ?_, ?_⟩
    · simp [update_chat, h]
    · simp [update_chat, h]
    · simp only [update_chat, h]
      simp only [get_chat, findChat]
      rw [hmap, hfind]
      simp [hpc, hprop.1, hprop.2, chatToDict, chatMessages, applyTitle_id]
  · intro ms
    simp only [update_chat, h]
    simp only [get_chat, findChat]
    rw [hmap, hfind]
    simp [hpc, hprop.1, hprop.2, chatToDict, chatMessages, applyTitle_id]
    rw [freshMsgs_filter]
    rw [sortByCreated_const st.clock _
      (fun m hm => (freshMsgs_mem cid st.clock ms st.nextMsgId m hm).2)]
    rw [freshMsgs_map_pair]

/-- C6: delete_chat removes the chat row only when (chat_id, user_id) match
an existing chat; a mismatch or missing chat returns False (not-found) with
the state untouched, and a successful deletion also removes every message of
the chat in the same operation, so no direct lookup can reach one of its
prior messages afterwards. -/
theorem delete_chat_scoped_cascade (st : DBState) (cid : String) (uid : Nat) :
    (findChat st cid uid = none → delete_chat st cid uid = (st, false)) ∧
    ∀ c, findChat st cid uid = some c →
      (delete_chat st cid uid).2 = true ∧
      findChat (delete_chat st cid uid).1 cid uid = none ∧
      chatMessages (delete_chat st cid uid).1 cid = [] ∧
      ∀ (mid : Nat) (m : MsgRow),
        find_message (delete_chat st cid uid).1 mid = some m → m.chatId ≠ cid := by
  constructor
  · intro h
    simp [delete_chat, h]
  · intro c h
    refine ⟨by simp [delete_chat, h], ?_, ?_, ?_⟩
    · simp only [delete_chat, h]
      simp only [findChat]
      exact find?_of_filter_not _ _
    · simp only [delete_chat, h]
      simp only [chatMessages]
      exact filter_of_filter_not _ _
    · intro mid m hm
      simp only [delete_chat, h] at hm
      simp only [find_message] at hm
      have hmem := List.mem_of_find?_eq_some hm
      have h2 := (List.mem_filter.1 hmem).2
      simpa using h2

theorem upsertByEmail_ret_fields (email name : String)
    (image provider providerId : Option String) (ts : Nat) (l : List UserRow)
    (fresh : Nat) :
    (upsertByEmail email name image provider providerId ts l fresh).2.1.email = email ∧
    (upsertByEmail email name image provider providerId ts l fresh).2.1.name = name ∧
    (upsertByEmail email name image provider providerId ts l fresh).2.1.image = image ∧
    (upsertByEmail email name image provider providerId ts l fresh).2.1.provider = provider ∧
    (upsertByEmail email name image provider providerId ts l fresh).2.1.providerId
      = providerId := by
  induction l generalizing fresh with
  | nil => exact ⟨rfl, rfl, rfl, rfl, rfl⟩
  | cons u rest ih =>
      by_cases hu : u.email = email
      · simp [upsertByEmail, hu]
      · simp [upsertByEmail, hu, ih]

theorem countEmail_nil (email : String) : countEmail [] email = 0 := rfl

theorem countEmail_cons (u : UserRow) (l : List UserRow) (email : String) :
    countEmail (u :: l) email
      = (if u.email = email then 1 else 0) + countEmail l email := by
  by_cases hu : u.email = email
  · simp [countEmail, List.filter_cons, hu]
    omega
  · simp [countEmail, List.filter_cons, hu]

theorem countEmail_upsert (email name : String)
    (image provider providerId : Option String) (ts : Nat) (l : List UserRow)
    (fresh : Nat) :
    countEmail (upsertByEmail email name image provider providerId ts l fresh).1 email
      = max 1 (countEmail l email) := by
  induction l generalizing fresh with
  | nil => simp [upsertByEmail, countEmail_cons, countEmail_nil]
  | cons u rest ih =>
      by_cases hu : u.email = email
      · have he : (upsertByEmail email name image provider providerId ts (u :: rest) fresh).1
            = ⟨u.id, u.email, name, image, provider, providerId, u.createdAt, ts⟩ :: rest := by
          simp [upsertByEmail, hu]
        rw [he, countEmail_cons, countEmail_cons]
        simp only [hu, if_true]
        omega
      · have he : (upsertByEmail email name image provider providerId ts (u :: rest) fresh).1
            = u :: (upsertByEmail email name image provider providerId ts rest fresh).1 := by
          simp [upsertByEmail, hu]
        rw [he, countEmail_cons, countEmail_cons, ih]
        simp only [hu, if_false]
        omega

theorem upsertByEmail_twice (email n1 n2 : String)
    (i1 i2 p1 p2 q1 q2 : Option String) (t1 t2 : Nat) (l : List UserRow)
    (f1 f2 : Nat) :
    (upsertByEmail email n2 i2 p2 q2 t2
        (upsertByEmail email n1 i1 p1 q1 t1 l f1).1 f2).2.1.id
      = (upsertByEmail email n1 i1 p1 q1 t1 l f1).2.1.id ∧
    (upsertByEmail email n2 i2 p2 q2 t2
        (upsertByEmail email n1 i1 p1 q1 t1 l f1).1 f2).1.length
      = (upsertByEmail email n1 i1 p1 q1 t1 l f1).1.length := by
  induction l generalizing f1 f2 with
  | nil => simp [upsertByEmail]
  | cons u rest ih =>
      by_cases hu : u.email = email
      · simp [upsertByEmail, hu]
      · have h1 := (ih f1 f2).1
        have h2 := (ih f1 f2).2
        simp [upsertByEmail, hu, h1, h2]

/-- C7: createOrUpsertUser is an upsert keyed by email: with at most one
existing row for the email (the unique-index invariant), two successive
calls never produce two rows for it, both return the same user id, the
second call inserts nothing, and the returned row of the second call
carries its supplied mutable fields. -/
theorem create_or_upsert_user_keyed_by_email (st : DBState) (email n1 n2 : String)
    (i1 i2 p1 p2 q1 q2 : Option String)
    (h : countEmail st.users email ≤ 1) :
    (create_or_get_user_by_email (create_or_get_user_by_email st email n1 i1 p1 q1).1
        email n2 i2 p2 q2).2.id
      = (create_or_get_user_by_email st email n1 i1 p1 q1).2.id ∧
    (create_or_get_user_by_email (create_or_get_user_by_email st email n1 i1 p1 q1).1
        email n2 i2 p2 q2).1.users.length
      = (create_or_get_user_by_email st email n1 i1 p1 q1).1.users.length ∧
    countEmail (create_or_get_user_by_email
        (create_or_get_user_by_email st email n1 i1 p1 q1).1 email n2 i2 p2 q2).1.users
        email = 1 ∧
    (create_or_get_user_by_email (create_or_get_user_by_email st email n1 i1 p1 q1).1
        email n2 i2 p2 q2).2.name = n2 ∧
    (create_or_get_user_by_email (create_or_get_user_by_email st email n1 i1 p1 q1).1
        email n2 i2 p2 q2).2.image = i2 ∧
    (create_or_get_user_by_email (create_or_get_user_by_email st email n1 i1 p1 q1).1
        email n2 i2 p2 q2).2.provider = p2 ∧
    (create_or_get_user_by_email (create_or_get_user_by_email st email n1 i1 p1 q1).1
        email n2 i2 p2 q2).2.providerId = q2 := by
  have htw := upsertByEmail_twice email n1 n2 i1 i2 p1 p2 q1 q2 st.clock (st.clock + 1)
    st.users st.nextUserId
    (upsertByEmail email n1 i1 p1 q1 st.clock st.users st.nextUserId).2.2
  have hc1 := countEmail_upsert email n1 i1 p1 q1 st.clock st.users st.nextUserId
  have hc2 := countEmail_upsert email n2 i2 p2 q2 (st.clock + 1)
    (upsertByEmail email n1 i1 p1 q1 st.clock st.users st.nextUserId).1
    (upsertByEmail email n1 i1 p1 q1 st.clock st.users st.nextUserId).2.2
  have hfields := upsertByEmail_ret_fields email n2 i2 p2 q2 (st.clock + 1)
    (upsertByEmail email n1 i1 p1 q1 st.clock st.users st.nextUserId).1
    (upsertByEmail email n1 i1 p1 q1 st.clock st.users st.nextUserId).2.2
  simp only [create_or_get_user_by_email, create_user]
  refine ⟨htw.1, htw.2, ?_, hfields.2.1, hfields.2.2.1, hfields.2.2.2.1, hfields.2.2.2.2⟩
  rw [hc2, hc1]
  omega

/-- Witness for C5: on a one-chat database, updating with messages=None
keeps the stored message row, and updating with a two-message list makes
get_chat return exactly those two messages. -/
theorem update_chat_none_vs_some_witness :
    findChat ⟨[], [⟨"c1", "제목", 7, 0, 0⟩], [⟨1, "c1", "user", "안녕", 0⟩], 1, 2, 9⟩ "c1" 7
      = some ⟨"c1", "제목", 7, 0, 0⟩ ∧
    (update_chat ⟨[], [⟨"c1", "제목", 7, 0, 0⟩], [⟨1, "c1", "user", "안녕", 0⟩], 1, 2, 9⟩
        "c1" 7 (some "새 제목") none).1.messages
      = [⟨1, "c1", "user", "안녕", 0⟩] ∧
    (get_chat (update_chat
        ⟨[], [⟨"c1", "제목", 7, 0, 0⟩], [⟨1, "c1", "user", "안녕", 0⟩], 1, 2, 9⟩
        "c1" 7 (some "새 제목") (some [⟨"user", "질문"⟩, ⟨"bot", "답변"⟩])).1 "c1" 7).map
        ChatDict.messages
      = some [("user", "질문"), ("bot", "답변")] :=
  ⟨rfl,
   (update_chat_none_vs_some
      ⟨[], [⟨"c1", "제목", 7, 0, 0⟩], [⟨1, "c1", "user", "안녕", 0⟩], 1, 2, 9⟩
      "c1" 7 (some "새 제목") ⟨"c1", "제목", 7, 0, 0⟩ rfl).1.1,
   (update_chat_none_vs_some
      ⟨[], [⟨"c1", "제목", 7, 0, 0⟩], [⟨1, "c1", "user", "안녕", 0⟩], 1, 2, 9⟩
      "c1" 7 (some "새 제목") ⟨"c1", "제목", 7, 0, 0⟩ rfl).2
     [⟨"user", "질문"⟩, ⟨"bot", "답변"⟩]⟩

/-- Witness for C6: deleting the only chat of a one-chat database returns
True and leaves no message of that chat behind. -/
theorem delete_chat_scoped_cascade_witness :
    findChat ⟨[], [⟨"c1", "제목", 7, 0, 0⟩], [⟨1, "c1", "user", "안녕", 0⟩], 1, 2, 9⟩ "c1" 7
      = some ⟨"c1", "제목", 7, 0, 0⟩ ∧
    (delete_chat ⟨[], [⟨"c1", "제목", 7, 0, 0⟩], [⟨1, "c1", "user", "안녕", 0⟩], 1, 2, 9⟩
        "c1" 7).2 = true ∧
    chatMessages (delete_chat
        ⟨[], [⟨"c1", "제목", 7, 0, 0⟩], [⟨1, "c1", "user", "안녕", 0⟩], 1, 2, 9⟩
        "c1" 7).1 "c1" = [] :=
  ⟨rfl,
   ((delete_chat_scoped_cascade
      ⟨[], [⟨"c1", "제목", 7, 0, 0⟩], [⟨1, "c1", "user", "안녕", 0⟩], 1, 2, 9⟩
      "c1" 7).2 ⟨"c1", "제목", 7, 0, 0⟩ rfl).1,
   ((delete_chat_scoped_cascade
      ⟨[], [⟨"c1", "제목", 7, 0, 0⟩], [⟨1, "c1", "user", "안녕", 0⟩], 1, 2, 9⟩
      "c1" 7).2 ⟨"c1", "제목", 7, 0, 0⟩ rfl).2.2.1⟩

/-- Witness for C7: starting from an empty users table, two upserts with the
same email return the same id and leave exactly one row for that email. -/
theorem create_or_upsert_user_keyed_by_email_witness :
    countEmail (DBState.users ⟨[], [], [], 1, 1, 0⟩) "kim@example.com" ≤ 1 ∧
    (create_or_get_user_by_email
        (create_or_get_user_by_email ⟨[], [], [], 1, 1, 0⟩ "kim@example.com" "김철수"
          none none none).1
        "kim@example.com" "김영희" none none none).2.id
      = (create_or_get_user_by_email ⟨[], [], [], 1, 1, 0⟩ "kim@example.com" "김철수"
          none none none).2.id ∧
    countEmail (create_or_get_user_by_email
        (create_or_get_user_by_email ⟨[], [], [], 1, 1, 0⟩ "kim@example.com" "김철수"
          none none none).1
        "kim@example.com" "김영희" none none none).1.users "kim@example.com" = 1 :=
  ⟨by decide,
   (create_or_upsert_user_keyed_by_email ⟨[], [], [], 1, 1, 0⟩ "kim@example.com"
      "김철수" "김영희" none none none none none none (by decide)).1,
   (create_or_upsert_user_keyed_by_email ⟨[], [], [], 1, 1, 0⟩ "kim@example.com"
      "김철수" "김영희" none none none none none none (by decide)).2.2.1⟩

end DB

end RAGSpec
